import Mathlib

/-!
Verification development for the discord-arxiv-bot repository.

The Python sources are shallowly embedded as executable Lean definitions:
timezone-aware datetimes become `Int` timestamps (seconds since the Unix
epoch), filesystem state becomes explicit values threaded through the
functions that read or write it, and fallible operations return `Option`
or `Except`.  Each section below names the Python file and function it
embeds.
-/

/- ### Calendar and time helpers

Python `datetime` values are modelled as `Int` seconds since the Unix
epoch.  `daysFromCivil` and `civilFromDays` are the standard proleptic
Gregorian conversions used to embed `datetime(...)` construction and
`strftime` rendering. -/

def isLeapYear (y : Int) : Bool :=
  (y % 4 == 0 && y % 100 != 0) || (y % 400 == 0)

def daysInMonth (y m : Int) : Int :=
  if m = 2 then (if isLeapYear y then 29 else 28)
  else if m = 4 ∨ m = 6 ∨ m = 9 ∨ m = 11 then 30
  else 31

def daysFromCivil (y m d : Int) : Int :=
  let yAdj := if m ≤ 2 then y - 1 else y
  let era := yAdj.fdiv 400
  let yoe := yAdj - era * 400
  let mp := if 2 < m then m - 3 else m + 9
  let doy := (153 * mp + 2).fdiv 5 + d - 1
  let doe := yoe * 365 + yoe.fdiv 4 - yoe.fdiv 100 + doy
  era * 146097 + doe - 719468

def civilFromDays (z0 : Int) : Int × Int × Int :=
  let z := z0 + 719468
  let era := z.fdiv 146097
  let doe := z - era * 146097
  let yoe := (doe - doe.fdiv 1460 + doe.fdiv 36524 - doe.fdiv 146096).fdiv 365
  let y := yoe + era * 400
  let doy := doe - (365 * yoe + yoe.fdiv 4 - yoe.fdiv 100)
  let mp := (5 * doy + 2).fdiv 153
  let d := doy - (153 * mp + 2).fdiv 5 + 1
  let m := mp + (if mp < 10 then 3 else -9)
  (y + (if m ≤ 2 then 1 else 0), m, d)

/-- Embeds `datetime(y, mo, d, h, mi, s, tzinfo=UTC)`: `none` models the
`ValueError` raised by the constructor on out-of-range fields. -/
def mkDatetimeUTC (y mo d h mi s : Int) : Option Int :=
  if 1 ≤ y ∧ y ≤ 9999 ∧ 1 ≤ mo ∧ mo ≤ 12 ∧ 1 ≤ d ∧ d ≤ daysInMonth y mo ∧
     0 ≤ h ∧ h < 24 ∧ 0 ≤ mi ∧ mi < 60 ∧ 0 ≤ s ∧ s < 60 then
    some (daysFromCivil y mo d * 86400 + h * 3600 + mi * 60 + s)
  else none

def pad2 (n : Int) : String :=
  (if n < 10 then "0" else "") ++ toString n

def pad4 (n : Int) : String :=
  (if n < 10 then "000" else if n < 100 then "00" else if n < 1000 then "0" else "")
    ++ toString n

/-- Embeds `published.strftime("%Y-%m-%d")` on a UTC timestamp. -/
def epochToDateStr (t : Int) : String :=
  let days := t.fdiv 86400
  let c := civilFromDays days
  pad4 c.1 ++ "-" ++ pad2 c.2.1 ++ "-" ++ pad2 c.2.2

/- ### Kernel-computable string primitives

The embeddings below use these list-of-characters implementations of the
Python string methods, so that every definition evaluates inside the
kernel on concrete inputs.  Each is semantically the usual operation:
ASCII lowercasing, whitespace trimming (Python `strip`), splitting on
every occurrence of a non-empty separator (Python `split`), single
character replacement, and a prefix-of-list test. -/

def lowerChar (c : Char) : Char :=
  if 'A' ≤ c ∧ c ≤ 'Z' then Char.ofNat (c.toNat + 32) else c

/-- Python `s.lower()` (ASCII range, matching `Char.toLower`). -/
def strLower (s : String) : String := ⟨s.data.map lowerChar⟩

/-- Python `s.strip()`. -/
def strTrim (s : String) : String :=
  ⟨((s.data.dropWhile Char.isWhitespace).reverse.dropWhile Char.isWhitespace).reverse⟩

/-- Python `s.replace(chr(10), " ")`. -/
def strReplaceNl (s : String) : String :=
  ⟨s.data.map (fun c => if c = '\n' then ' ' else c)⟩

/-- Python `s[:n]`. -/
def strTake (s : String) (n : Nat) : String := ⟨s.data.take n⟩

def prefixMatches : List Char → List Char → Bool
  | [], _ => true
  | _ :: _, [] => false
  | p :: ps, c :: cs => p == c && prefixMatches ps cs

def splitOnGo (sep : List Char) : Nat → List Char → List Char → List (List Char)
  | 0, acc, rest => [acc.reverse ++ rest]
  | _ + 1, acc, [] => [acc.reverse]
  | fuel + 1, acc, c :: cs =>
    if prefixMatches sep (c :: cs) then
      acc.reverse :: splitOnGo sep fuel [] (List.drop sep.length (c :: cs))
    else splitOnGo sep fuel (c :: acc) cs

/-- Python `s.split(sep)` for a non-empty separator. -/
def strSplitOn (s sep : String) : List String :=
  if sep.data = [] then [s]
  else (splitOnGo sep.data (s.data.length + 1) [] s.data).map (fun l => ⟨l⟩)

/- ### String parsing helpers for RSS dates -/

def parseDigits (s : String) : Option Nat :=
  if s.data ≠ [] && s.data.all (fun c => c.isDigit) then
    some (s.data.foldl (fun a c => a * 10 + (c.toNat - 48)) 0)
  else none

def monthIndex : String → Option Int
  | "Jan" => some 1
  | "Feb" => some 2
  | "Mar" => some 3
  | "Apr" => some 4
  | "May" => some 5
  | "Jun" => some 6
  | "Jul" => some 7
  | "Aug" => some 8
  | "Sep" => some 9
  | "Oct" => some 10
  | "Nov" => some 11
  | "Dec" => some 12
  | _ => none

/-- Parses a `%z` timezone offset such as `+0000`, returning the offset in
seconds. -/
def parseTzOffset (s : String) : Option Int :=
  match s.data with
  | [sg, a, b, c, d] =>
    if (sg = '+' ∨ sg = '-') ∧ a.isDigit ∧ b.isDigit ∧ c.isDigit ∧ d.isDigit then
      let hh : Int := ((a.toNat - 48) * 10 + (b.toNat - 48) : Nat)
      let mm : Int := ((c.toNat - 48) * 10 + (d.toNat - 48) : Nat)
      some ((if sg = '+' then 1 else -1) * (hh * 3600 + mm * 60))
    else none
  | _ => none

/-- Embeds `datetime.strptime(s, "%a, %d %b %Y %H:%M:%S %z")` from
`arxiv_fetcher.py` line 351 and `bot.py` line 107; `none` models the
`ValueError` raised on a mismatch. -/
def parsePublishedString (s : String) : Option Int :=
  match strSplitOn s " " with
  | [wd, dd, mon, yyyy, hms, tz] =>
    if ["Mon,", "Tue,", "Wed,", "Thu,", "Fri,", "Sat,", "Sun,"].contains wd then
      match parseDigits dd, monthIndex mon, parseDigits yyyy with
      | some d, some mo, some y =>
        match strSplitOn hms ":" with
        | [hs, ms, ss] =>
          match parseDigits hs, parseDigits ms, parseDigits ss with
          | some h, some mi, some sec =>
            match parseTzOffset tz with
            | some off =>
              match mkDatetimeUTC y mo d h mi sec with
              | some t => some (t - off)
              | none => none
            | none => none
          | _, _, _ => none
        | _ => none
      | _, _, _ => none
    else none
  | _ => none

/-- Decidable equality for `Except`, used to state concrete facts about
fallible embedded functions. -/
instance {ε α : Type} [DecidableEq ε] [DecidableEq α] : DecidableEq (Except ε α) := fun a b =>
  match a, b with
  | .error x, .error y =>
    if h : x = y then isTrue (h ▸ rfl) else isFalse (fun hc => h (Except.error.inj hc))
  | .ok x, .ok y =>
    if h : x = y then isTrue (h ▸ rfl) else isFalse (fun hc => h (Except.ok.inj hc))
  | .error _, .ok _ => isFalse (fun hc => Except.noConfusion hc)
  | .ok _, .error _ => isFalse (fun hc => Except.noConfusion hc)

/- ### Data model (arxiv_fetcher.py, settings.py, utils.py) -/

/-- Embeds the `Paper` NamedTuple of arxiv_fetcher.py lines 22-32. -/
structure Paper where
  id : String
  title : String
  authors : List String
  published : Int
  summary : String
  link : String
  pdf_link : String
  journal_ref : Option String
  announce_type : Option String
deriving DecidableEq, Repr

/-- Embeds the fields of `AppSettings` (settings.py) that the claims
exercise.  Python dicts become association lists. -/
structure AppSettings where
  target_authors : List String
  author_discord_ids : List (String × Int) := []
  source : String := "rss"
  no_save : Bool := false
  force_rss_check : Bool := false
  category : String := "quant-ph"
  max_results : Nat := 50
deriving DecidableEq, Repr

/-- Latex decoding of author names (utils.py `decode_author_name`) calls an
external library (pylatexenc), which the spec excludes from scope as a
simple wrapper with no algorithmic content; it is modelled as the identity
on strings. -/
def decode_author_name (s : String) : String := s

/-- Python `s.split("/abs/")[-1]`, used for short ids and PDF links. -/
def lastAbsPart (s : String) : String :=
  ((strSplitOn s "/abs/").getLast?).getD s

/- ### RSS feed model (feedparser output, arxiv_fetcher.py lines 258-392) -/

/-- One element of the raw `entry.authors` list.  ArXiv RSS usually puts
all authors into one dict `[{"name": "A, B"}]`; `notDict` models a
non-dict element, `dict none` a dict whose `name` value is not a string. -/
inductive AuthorsItem where
  | notDict
  | dict (name : Option String)
deriving DecidableEq, Repr

/-- A raw feedparser entry.  Each `Option String` field is `none` when the
attribute is missing or not a string (the source checks both with
`getattr` plus `isinstance`).  `published_parsed` models the
`time.struct_time` as its list of integer fields. -/
structure RssEntry where
  id : Option String := none
  title : Option String := none
  summary : Option String := none
  link : Option String := none
  authorsField : List AuthorsItem := []
  published_parsed : Option (List Int) := none
  published : Option String := none
  journal_ref : Option String := none
  announceTypeAttr : Option String := none
deriving DecidableEq, Repr

/-- The `status` attribute of a parsed feed: missing, an int, a list of
ints, or some other type (arxiv_fetcher.py lines 164-167 handle each). -/
inductive StatusField where
  | missing
  | intStatus (n : Int)
  | listStatus (l : List Int)
  | otherStatus
deriving DecidableEq, Repr

/-- A parsed feed document: `entries = none` models a feed object with no
`entries` list (or a non-list value). -/
structure Feed where
  status : StatusField
  entries : Option (List RssEntry)
deriving DecidableEq, Repr

namespace ArxivFetcher

/-- Embeds `_is_author_match` (arxiv_fetcher.py lines 204-220): the two
lowercased author sets are disjoint iff no lowercased target occurs among
the lowercased paper authors. -/
def is_author_match (target_authors paper_authors : List String) : Bool :=
  (target_authors.map strLower).any
    (fun t => (paper_authors.map strLower).contains t)

/-- Embeds the author parsing of `_normalize_rss_entry` (lines 292-308):
split the single joined name string on commas, strip, drop empties,
decode. -/
def parseEntryAuthors (l : List AuthorsItem) : List String :=
  match l with
  | [] => []
  | item :: _ =>
    match item with
    | .notDict => []
    | .dict none => []
    | .dict (some s) =>
      (strSplitOn s ",").filterMap (fun n =>
        if strTrim n = "" then none else some (decode_author_name (strTrim n)))

/-- Python `summary_raw.split("Abstract: ", 1)[-1]`: everything after the
first occurrence of the marker (or the whole string if absent). -/
def splitAfterAbstract (s : String) : String :=
  match strSplitOn s "Abstract: " with
  | [] => s
  | [x] => x
  | _ :: rest => String.intercalate "Abstract: " rest

/-- Embeds the date handling of `_normalize_rss_entry` (lines 320-366):
use `published_parsed` when present, truthy (non-empty) and of length at
least 6, falling back to parsing the `published` string when the parsed
tuple is unusable or `datetime(...)` rejects its fields. -/
def parseEntryDate (pp : Option (List Int)) (ps : Option String) : Option Int :=
  let fromParsed : Option Int :=
    match pp with
    | some (y :: mo :: d :: h :: mi :: s :: _) => mkDatetimeUTC y mo d h mi s
    | _ => none
  match fromParsed with
  | some t => some t
  | none =>
    match ps with
    | some s => parsePublishedString s
    | none => none

/-- Embeds `_normalize_rss_entry` (arxiv_fetcher.py lines 258-392).
Returns `none` exactly where the source logs and returns `None`: missing
or non-string id, title or summary, or no usable published date. -/
def normalize_rss_entry (e : RssEntry) : Option Paper :=
  match e.id with
  | none => none
  | some entry_id_url =>
    match e.title with
    | none => none
    | some title =>
      match e.summary with
      | none => none
      | some summary_raw =>
        let link := (e.link).getD entry_id_url
        let authors := parseEntryAuthors e.authorsField
        let pdf_link := "http://arxiv.org/pdf/" ++ lastAbsPart entry_id_url
        match parseEntryDate e.published_parsed e.published with
        | none => none
        | some published_dt =>
          some {
            id := entry_id_url,
            title := strTrim title,
            authors := authors,
            published := published_dt,
            summary := strReplaceNl (strTrim (splitAfterAbstract summary_raw)),
            link := link,
            pdf_link := pdf_link,
            journal_ref := e.journal_ref,
            announce_type := some ((e.announceTypeAttr).getD "rss_unknown") }

/-- Lines 165-166: if the status attribute is a non-empty list, use its
first element. -/
def resolveStatus : StatusField → StatusField
  | .listStatus (h :: _) => .intStatus h
  | s => s

/-- Lines 164-171: the fetch is voided only when the (resolved) status is
an int that is 400 or more. -/
def statusBad (s : StatusField) : Bool :=
  match resolveStatus s with
  | .intStatus n => 400 ≤ n
  | _ => false

/-- The per-entry body of the fetch loop (lines 187-200): normalize, then
keep the paper only if some target author matches; any normalization
failure yields `none` for this entry alone. -/
def rssEntryStep (st : AppSettings) (e : RssEntry) : Option Paper :=
  match normalize_rss_entry e with
  | some p => if is_author_match st.target_authors p.authors then some p else none
  | none => none

/-- The fetch loop over `feed.entries[:max_results]` (lines 185-202). -/
def fetchEntries (st : AppSettings) (es : List RssEntry) : List Paper :=
  (es.take st.max_results).filterMap (rssEntryStep st)

/-- Lines 174-176 and 185-202: missing entries list yields an empty
result, otherwise the loop runs. -/
def processFeedEntries (st : AppSettings) (entries : Option (List RssEntry)) : List Paper :=
  match entries with
  | none => []
  | some es => fetchEntries st es

/-- Embeds `_fetch_from_rss` (arxiv_fetcher.py lines 141-202).  The
`Except` input models the surrounding try block: an exception raised while
fetching or parsing the feed yields an empty result. -/
def fetch_from_rss (st : AppSettings) (res : Except Unit Feed) : List Paper :=
  match res with
  | .error _ => []
  | .ok feed =>
    if statusBad feed.status then [] else processFeedEntries st feed.entries

/- ### API source (arxiv_fetcher.py lines 91-139 and 222-256) -/

/-- A result record from the external arxiv API client. -/
structure ApiResult where
  entry_id : String
  title : String
  authors : List String
  published : Int
  summary : String
  journal_ref : Option String
deriving DecidableEq, Repr

/-- Embeds `_normalize_api_result` (lines 222-256); `get_short_id` of the
external arxiv library extracts the part of the entry URL after /abs/. -/
def normalize_api_result (r : ApiResult) : Paper :=
  { id := r.entry_id,
    title := strTrim r.title,
    authors := r.authors,
    published := r.published,
    summary := strReplaceNl (strTrim r.summary),
    link := r.entry_id,
    pdf_link := "http://arxiv.org/pdf/" ++ lastAbsPart r.entry_id,
    journal_ref := r.journal_ref,
    announce_type := some "api_new" }

/-- Embeds `_fetch_from_api` (lines 91-139): the `Except` input models the
try block around the API call (an error yields an empty list); the sort
order of `results` is whatever the upstream service returned for the
ascending-submitted-date request. -/
def fetch_from_api (res : Except Unit (List ApiResult)) : List Paper :=
  match res with
  | .error _ => []
  | .ok rs => rs.map normalize_api_result

/-- Embeds the routing of `fetch_latest_papers` (lines 51-89): an invalid
source raises `ValueError`. -/
def fetch_latest_papers (st : AppSettings) (apiRes : Except Unit (List ApiResult))
    (rssRes : Except Unit Feed) : Except String (List Paper) :=
  if st.source = "api" then .ok (fetch_from_api apiRes)
  else if st.source = "rss" then .ok (fetch_from_rss st rssRes)
  else .error ("Invalid source: " ++ st.source)

end ArxivFetcher

/- ### bot.py embedding -/

namespace Bot

/-- Embeds the author-match test of bot.py line 98: any target equals any
author, case-insensitively. -/
def anyAuthorMatch (targets authors : List String) : Bool :=
  targets.any (fun t => authors.any (fun a => strLower t == strLower a))

/-- Embeds the per-entry body of `get_latest_papers_from_rss` (bot.py
lines 81-128).  `Except.error` models an uncaught exception (the explicit
`raise ValueError` for a malformed authors field, attribute access on a
missing field, or the IndexError from `split("Abstract: ")[1]`);
`.ok none` models a `continue` (no author match, or an unparseable
published date, whose try block also swallows a missing attribute). -/
def botNormalizeEntry (targets : List String) (e : RssEntry) :
    Except String (Option Paper) :=
  match e.authorsField with
  | [] => .error "invalid authors list"
  | item :: _ =>
    match item with
    | .notDict => .error "attribute error on authors element"
    | .dict none => .error "invalid author name"
    | .dict (some nameValue) =>
      let authors := (strSplitOn nameValue ", ").map decode_author_name
      if ¬ anyAuthorMatch targets authors then .ok none
      else
        match e.id with
        | none => .error "attribute error on id"
        | some idStr =>
          let pdf_link := "http://arxiv.org/pdf/" ++ lastAbsPart idStr
          match (match e.published with
                 | some s => parsePublishedString s
                 | none => none) with
          | none => .ok none
          | some published_dt =>
            match e.summary with
            | none => .error "attribute error on summary"
            | some summaryRaw =>
              match strSplitOn summaryRaw "Abstract: " with
              | _ :: second :: _ =>
                match e.title, e.link, e.announceTypeAttr with
                | some title, some link, some announceVal =>
                  .ok (some {
                    id := idStr,
                    title := title,
                    authors := authors,
                    published := published_dt,
                    summary := second,
                    link := link,
                    pdf_link := pdf_link,
                    journal_ref := e.journal_ref,
                    announce_type := some announceVal })
                | _, _, _ => .error "attribute error on entry field"
              | _ => .error "index error on summary split"

/-- The entry loop of `get_latest_papers_from_rss`: an error on any entry
aborts the whole fetch; otherwise matching papers are collected in
order. -/
def botRun (targets : List String) : List RssEntry → Except String (List Paper)
  | [] => .ok []
  | e :: es =>
    match botNormalizeEntry targets e with
    | .error msg => .error msg
    | .ok none => botRun targets es
    | .ok (some p) => (botRun targets es).map (fun l => p :: l)

/-- Embeds `get_latest_papers_from_rss` (bot.py lines 64-130). -/
def get_latest_papers_from_rss (targets : List String) (maxr : Nat)
    (es : List RssEntry) : Except String (List Paper) :=
  botRun targets (es.take maxr)

/-- Embeds the dedupe guard of the delivery loop in `check_arxiv` (bot.py
lines 364-374): the transient `posted_papers` set is the first argument,
and a paper is processed only when its id is not yet in the set. -/
def deliverRun : List String → List Paper → List Paper
  | _, [] => []
  | seen, p :: ps =>
    if seen.contains p.id then deliverRun seen ps
    else p :: deliverRun (p.id :: seen) ps

/-- Python `max(paper["published"] for paper in papers)` over a non-empty
list (bot.py line 439); the `.replace(tzinfo=None)` there is the identity
in this model because API timestamps are uniformly UTC. -/
def maxPublished : List Paper → Int
  | [] => 0
  | p :: ps => ps.foldl (fun m q => max m q.published) p.published

/-- Embeds the end-of-run watermark write of `check_arxiv` (bot.py lines
433-443): saved only when at least one paper was posted, the source is the
API and saving is not suppressed; the saved value is the maximum published
time over all fetched papers plus one second. -/
def savedApiWatermark (noSave : Bool) (source : String) (papersPosted : Nat)
    (papers : List Paper) : Option Int :=
  if 0 < papersPosted ∧ source = "api" then
    if noSave then none else some (maxPublished papers + 1)
  else none

end Bot

/- ### File-backed state (state_manager.py and bot.py) -/

/-- The content of one watermark file: absent, present but unreadable or
unparseable, or holding a parsed value (a timestamp for the query file, an
Eastern-timezone calendar day for the feed file). -/
inductive WFile where
  | absent
  | corrupt
  | holds (v : Int)
deriving DecidableEq, Repr

namespace StateManager

/-- Embeds `StateManager.get_last_api_check_time` (state_manager.py lines
14-35) as a state transition: result value paired with the file state
afterwards.  Note the absent-file branch only returns the default; the
optional file creation in the source is commented out. -/
def get_last_api_check_time (override : Option Int) (f : WFile) (now : Int) :
    Int × WFile :=
  match override with
  | some d => (d, f)
  | none =>
    match f with
    | .holds t => (t, f)
    | .corrupt => (now - 86400, f)
    | .absent => (now - 86400, f)

/-- Embeds `StateManager.save_last_api_check_time` (lines 37-51): skipped
under `no_save`, otherwise the written value is the given time plus one
second. -/
def save_last_api_check_time (noSave : Bool) (t : Int) : Option Int :=
  if noSave then none else some (t + 1)

/-- Embeds `_get_last_rss_check_date_from_file` (lines 53-63). -/
def get_last_rss_check_date_from_file (f : WFile) : Option Int :=
  match f with
  | .holds d => some d
  | _ => none

/-- Embeds `StateManager.has_checked_rss_today` (lines 65-82); `today` is
the current calendar day in the fixed Eastern timezone. -/
def has_checked_rss_today (force : Bool) (f : WFile) (today : Int) : Bool :=
  if force then false
  else
    match get_last_rss_check_date_from_file f with
    | none => false
    | some d => d == today

end StateManager

namespace Bot

/-- Embeds `get_last_submission_date_from_file` (bot.py lines 232-253) as
a state transition: when the file is absent it is created with the default
date (yesterday); when unreadable the default is returned without
touching the file. -/
def get_last_submission_date_from_file (f : WFile) (now : Int) : Int × WFile :=
  match f with
  | .holds t => (t, f)
  | .corrupt => (now - 86400, f)
  | .absent => (now - 86400, .holds (now - 86400))

/-- Embeds `already_checked_rss_today` (bot.py lines 269-294) as a state
transition; `today` is the current Eastern-timezone calendar day.  When
the file is absent it is created with the current date and the function
returns false; an unreadable file returns false without changes. -/
def already_checked_rss_today (f : WFile) (today : Int) : Bool × WFile :=
  match f with
  | .holds d => (d == today, f)
  | .corrupt => (false, f)
  | .absent => (false, .holds today)

end Bot

/- ### discord_formatter.py embedding -/

namespace DiscordFormatter

/-- Embeds `_build_target_authors_string` (discord_formatter.py lines
93-136). -/
def build_target_authors_string (paper_authors target_authors : List String)
    (author_discord_ids : List (String × Int)) : String :=
  let paperLower := paper_authors.map strLower
  let targetInPaper := target_authors.filter (fun (t : String) => paperLower.contains (strLower t))
  if targetInPaper = [] then "tracked authors"
  else
    let reordered :=
      match paper_authors with
      | [] => targetInPaper
      | fa :: _ =>
        match targetInPaper.find? (fun (t : String) => strLower t == strLower fa) with
        | some m => m :: targetInPaper.erase m
        | none => targetInPaper
    let tagged := reordered.map (fun a =>
      match (author_discord_ids.find? (fun (q : String × Int) => q.1 == a)).map
          (fun (q : String × Int) => q.2) with
      | some i => if i ≠ 0 then "<@" ++ toString i ++ ">" else a
      | none => a)
    match tagged with
    | [] => "tracked authors"
    | [a] => a
    | [a, b] => a ++ " and " ++ b
    | l => String.intercalate ", " l.dropLast ++ ", and " ++ (l.getLast?.getD "")

/-- Lines 22-24: truncate the abstract to 1400 characters plus a marker. -/
def truncateSummary (s : String) : String :=
  if 1400 < s.length then strTake s 1400 ++ "... [truncated]" else s

/-- Lines 30: the optional journal-reference line. -/
def journalLine (jr : Option String) : String :=
  match jr with
  | some s => if s = "" then "" else "**Journal Reference:** " ++ s ++ "\n"
  | none => ""

/-- Python truthiness of `paper.journal_ref`. -/
def journalTruthy : Option String → Bool
  | some s => s != ""
  | none => false

/-- The `message_template` of lines 47-55, with the fields filled in. -/
def messageRender (targetAuthors title authorsStr publishedDate summary
    journalRefLine link : String) : String :=
  "📄 **New paper by " ++ targetAuthors ++ "**:\n" ++
  "**Title:** " ++ title ++ "\n" ++
  "**Authors:** " ++ authorsStr ++ "\n" ++
  "**Announced:** " ++ publishedDate ++ "\n" ++
  "**Abstract:** " ++ summary ++ "\n" ++
  journalRefLine ++
  "🔗 <" ++ link ++ ">"

/-- The special update notice of lines 33-38. -/
def replaceMessage (p : Paper) (s : AppSettings) : String :=
  "📄 **Update to paper by " ++
    build_target_authors_string p.authors s.target_authors s.author_discord_ids ++
  "**:\n" ++
  "The arXiv paper <" ++ p.link ++ "> was published! Cheers! 🥂🍾\n" ++
  "**New journal reference:** " ++ p.journal_ref.getD ""

/-- The full-author rendering of lines 57-67. -/
def fullMessage (p : Paper) (s : AppSettings) : String :=
  messageRender
    (build_target_authors_string p.authors s.target_authors s.author_discord_ids)
    p.title (String.intercalate ", " p.authors) (epochToDateStr p.published)
    (truncateSummary p.summary) (journalLine p.journal_ref) p.link

/-- The degraded rendering of lines 69-83 with the author list collapsed
to first author plus et al. -/
def etalMessage (p : Paper) (s : AppSettings) : String :=
  messageRender
    (build_target_authors_string p.authors s.target_authors s.author_discord_ids)
    p.title ((p.authors.headD "Unknown") ++ " et al.") (epochToDateStr p.published)
    (truncateSummary p.summary) (journalLine p.journal_ref) p.link

/-- Embeds `format_paper_message` (discord_formatter.py lines 12-90):
`none` is the distinct formatting-failed signal. -/
def format_paper_message (p : Paper) (s : AppSettings) : Option String :=
  if s.source == "rss" && p.announce_type == some "replace" && journalTruthy p.journal_ref then
    if 2000 < (replaceMessage p s).length then none else some (replaceMessage p s)
  else if 2000 < (fullMessage p s).length then
    if 2000 < (etalMessage p s).length then none else some (etalMessage p s)
  else some (fullMessage p s)

end DiscordFormatter

/- ### Concrete inputs used by witnesses and counterexamples -/

def stC : AppSettings := { target_authors := ["Alice Smith"], source := "rss" }

def e1 : RssEntry :=
  { id := some "http://arxiv.org/abs/2501.00001"
    title := some "Paper One"
    summary := some "info Abstract: first abstract"
    link := some "http://arxiv.org/abs/2501.00001"
    authorsField := [.dict (some "Alice Smith, Bob Jones")]
    published_parsed := some [2025, 1, 8, 0, 0, 0]
    announceTypeAttr := some "new" }

def e2 : RssEntry :=
  { id := some "http://arxiv.org/abs/2501.00002"
    title := some "Paper Two"
    summary := some "info Abstract: second abstract"
    link := some "http://arxiv.org/abs/2501.00002"
    authorsField := [.dict (some "Alice Smith")]
    published_parsed := some [2025, 1, 7, 0, 0, 0]
    announceTypeAttr := some "new" }

/-- A feed whose two matching entries arrive with descending published
times (the later paper listed first). -/
def feedC : Feed := { status := .intStatus 200, entries := some [e1, e2] }

def mkPaper (i : String) (t : Int) : Paper :=
  { id := i, title := "", authors := [], published := t, summary := "",
    link := "", pdf_link := "", journal_ref := none, announce_type := none }

/- ### Claim theorems -/

theorem deliverRun_nodup_aux (seen : List String) (papers : List Paper) :
    ((Bot.deliverRun seen papers).map Paper.id).Nodup ∧
      ∀ q ∈ Bot.deliverRun seen papers, q.id ∉ seen := by
  induction papers generalizing seen with
  | nil => simp [Bot.deliverRun]
  | cons p ps ih =>
    by_cases h : p.id ∈ seen
    · simpa [Bot.deliverRun, h] using ih seen
    · have ih2 := ih (p.id :: seen)
      have hred : Bot.deliverRun seen (p :: ps) = p :: Bot.deliverRun (p.id :: seen) ps := by
        simp [Bot.deliverRun, h]
      rw [hred]
      constructor
      · rw [List.map_cons, List.nodup_cons]
        constructor
        · intro hmem
          rcases List.mem_map.mp hmem with ⟨q, hq, hqid⟩
          exact (ih2.2 q hq) (by rw [hqid]; exact List.mem_cons_self _ _)
        · exact ih2.1
      · intro q hq
        rcases List.mem_cons.mp hq with rfl | hq2
        · exact h
        · intro hin
          exact (ih2.2 q hq2) (List.mem_cons_of_mem _ hin)

/-- C3: within a single run, the delivery loop of `check_arxiv` processes
each paper id at most once: after deduplication against the transient
per-run `posted_papers` set (initially empty), the list of processed
papers has pairwise distinct ids, even when the fetched sequence lists an
id twice. -/
theorem c3_in_run_dedupe (papers : List Paper) :
    ((Bot.deliverRun [] papers).map Paper.id).Nodup :=
  (deliverRun_nodup_aux [] papers).1

/-- C4: `has_checked_rss_today` returns true exactly when the force flag
is off and the feed-watermark file holds the current Eastern-timezone
calendar day; whenever the force flag is set it returns false regardless
of the stored value. -/
theorem c4_feed_day_gate (force : Bool) (f : WFile) (today : Int) :
    StateManager.has_checked_rss_today force f today = true ↔
      (force = false ∧ f = WFile.holds today) := by
  cases force <;> cases f <;>
    simp [StateManager.has_checked_rss_today, StateManager.get_last_rss_check_date_from_file]

/-- C10: the bot.py feed-day gate `already_checked_rss_today` writes the
current Eastern date to an absent file as a side effect of the read and
returns false; a second call on the same day then returns true even
though nothing was fetched in between; and a call with the file present
leaves the file unchanged. -/
theorem c10_feed_gate_side_effect (today d : Int) :
    Bot.already_checked_rss_today WFile.absent today = (false, WFile.holds today)
    ∧ (Bot.already_checked_rss_today
        (Bot.already_checked_rss_today WFile.absent today).2 today).1 = true
    ∧ Bot.already_checked_rss_today (WFile.holds d) today = ((d == today), WFile.holds d)
    ∧ Bot.already_checked_rss_today WFile.corrupt today = (false, WFile.corrupt) := by
  refine ⟨rfl, ?_, rfl, rfl⟩
  simp [Bot.already_checked_rss_today]

/-- C6 counterexample: with the query-watermark file absent,
`StateManager.get_last_api_check_time` leaves the store uninitialized
(the file is still absent afterwards), contradicting the claim that the
read creates the watermark file; the returned value is the default
(now minus one day, here with now = 0). -/
theorem c6_counterexample :
    (StateManager.get_last_api_check_time none WFile.absent 0).2 = WFile.absent
    ∧ (StateManager.get_last_api_check_time none WFile.absent 0).1 = -86400 :=
  ⟨rfl, rfl⟩

/-- C6 amended: when the query-watermark file is absent or unreadable,
both readers return now minus one day without raising; the bot.py reader
`get_last_submission_date_from_file` additionally creates the file with
that default when it was absent, while the StateManager reader returns
the default without creating the file. -/
theorem c6_default_on_missing_state (now t : Int) :
    StateManager.get_last_api_check_time none WFile.absent now = (now - 86400, WFile.absent)
    ∧ StateManager.get_last_api_check_time none WFile.corrupt now = (now - 86400, WFile.corrupt)
    ∧ StateManager.get_last_api_check_time none (WFile.holds t) now = (t, WFile.holds t)
    ∧ Bot.get_last_submission_date_from_file WFile.absent now
        = (now - 86400, WFile.holds (now - 86400))
    ∧ Bot.get_last_submission_date_from_file WFile.corrupt now = (now - 86400, WFile.corrupt) :=
  ⟨rfl, rfl, rfl, rfl, rfl⟩

/-- C8: a feed whose final HTTP-style status is 400 or more yields an
empty fetch; a 2xx or 3xx status proceeds to entry normalization; and an
exception during fetching or parsing also yields an empty result instead
of propagating. -/
theorem c8_feed_status_gate (st : AppSettings) (feed : Feed) (n : Nat) (k : Fin 200) :
    ArxivFetcher.fetch_from_rss st (.error ()) = []
    ∧ ArxivFetcher.fetch_from_rss st
        (.ok { status := .intStatus (400 + (n : Int)), entries := feed.entries }) = []
    ∧ ArxivFetcher.fetch_from_rss st
        (.ok { status := .intStatus (200 + (k : Int)), entries := feed.entries })
        = ArxivFetcher.processFeedEntries st feed.entries := by
  refine ⟨rfl, ?_, ?_⟩
  · have hb : ArxivFetcher.statusBad (.intStatus (400 + (n : Int))) = true := by
      simp [ArxivFetcher.statusBad, ArxivFetcher.resolveStatus]
      try omega
    simp [ArxivFetcher.fetch_from_rss, hb]
  · have hk := k.isLt
    have hb : ArxivFetcher.statusBad (.intStatus (200 + (k : Int))) = false := by
      simp [ArxivFetcher.statusBad, ArxivFetcher.resolveStatus]
      try omega
    simp [ArxivFetcher.fetch_from_rss, hb]

/-- C2: after a query-source run with at least one paper fetched and no
failures (so every deduplicated paper is posted), the saved watermark is
the maximum published timestamp of the fetched papers plus exactly one
second; the StateManager writer adds the same one-second pad; and for
three papers with published times t1 < t2 < t3 the stored watermark is
t3 + 1. -/
theorem c2_watermark_advance (papers : List Paper) (t t1 t2 t3 : Int)
    (hne : papers ≠ []) (h12 : t1 < t2) (h23 : t2 < t3) :
    Bot.savedApiWatermark false "api" (Bot.deliverRun [] papers).length papers
      = some (Bot.maxPublished papers + 1)
    ∧ StateManager.save_last_api_check_time false t = some (t + 1)
    ∧ Bot.savedApiWatermark false "api"
        (Bot.deliverRun [] [mkPaper "a" t1, mkPaper "b" t2, mkPaper "c" t3]).length
        [mkPaper "a" t1, mkPaper "b" t2, mkPaper "c" t3]
      = some (t3 + 1) := by
  refine ⟨?_, rfl, ?_⟩
  · cases papers with
    | nil => exact absurd rfl hne
    | cons p ps =>
      have hred : Bot.deliverRun [] (p :: ps) = p :: Bot.deliverRun [p.id] ps := by
        simp [Bot.deliverRun]
      rw [hred]
      simp [Bot.savedApiWatermark]
  · have hlen : (Bot.deliverRun [] [mkPaper "a" t1, mkPaper "b" t2, mkPaper "c" t3]).length
        = 3 := rfl
    have hmax : Bot.maxPublished [mkPaper "a" t1, mkPaper "b" t2, mkPaper "c" t3]
        = max (max t1 t2) t3 := rfl
    rw [hlen]
    simp [Bot.savedApiWatermark, hmax]
    omega

/-- C2 witness: concrete instance of the watermark advance, with papers
published at 10 < 20 < 30 saving 30 + 1, and the pad write at time 5. -/
theorem c2_watermark_witness :
    Bot.savedApiWatermark false "api" (Bot.deliverRun [] [mkPaper "x" 7]).length [mkPaper "x" 7]
      = some (Bot.maxPublished [mkPaper "x" 7] + 1)
    ∧ StateManager.save_last_api_check_time false 5 = some (5 + 1)
    ∧ Bot.savedApiWatermark false "api"
        (Bot.deliverRun [] [mkPaper "a" 10, mkPaper "b" 20, mkPaper "c" 30]).length
        [mkPaper "a" 10, mkPaper "b" 20, mkPaper "c" 30]
      = some (30 + 1) := by
  have h := c2_watermark_advance [mkPaper "x" 7] 5 10 20 30 (by simp) (by decide) (by decide)
  exact ⟨h.1, h.2.1, h.2.2⟩

/-- C5: the author-match predicate is true exactly when some watch-list
entry equals some paper author under case-insensitive comparison (exact
match, not substring); the fetcher predicate agrees with the bot.py
variant; authors Alice Smith match watch-list alice smith but not
watch-list Smith. -/
theorem c5_name_matcher (targets authors : List String) :
    (ArxivFetcher.is_author_match targets authors = true ↔
      ∃ t ∈ targets, ∃ a ∈ authors, strLower t = strLower a)
    ∧ ArxivFetcher.is_author_match targets authors = Bot.anyAuthorMatch targets authors
    ∧ ArxivFetcher.is_author_match ["alice smith"] ["Alice Smith"] = true
    ∧ ArxivFetcher.is_author_match ["Smith"] ["Alice Smith"] = false := by
  have h1 : ArxivFetcher.is_author_match targets authors = true ↔
      ∃ t ∈ targets, ∃ a ∈ authors, strLower t = strLower a := by
    simp only [ArxivFetcher.is_author_match, List.any_eq_true, List.mem_map, List.contains,
      List.elem_iff]
    constructor
    · rintro ⟨x, ⟨t, ht, rfl⟩, a, ha, hax⟩
      exact ⟨t, ht, a, ha, hax.symm⟩
    · rintro ⟨t, ht, a, ha, h⟩
      exact ⟨strLower t, ⟨t, ht, rfl⟩, a, ha, h.symm⟩
  have h2 : Bot.anyAuthorMatch targets authors = true ↔
      ∃ t ∈ targets, ∃ a ∈ authors, strLower t = strLower a := by
    simp [Bot.anyAuthorMatch, List.any_eq_true]
  refine ⟨h1, ?_, by decide, by decide⟩
  by_cases hA : ArxivFetcher.is_author_match targets authors = true
  · rw [hA, (h2.mpr (h1.mp hA)).symm]
  · have hA' : ArxivFetcher.is_author_match targets authors = false :=
      Bool.eq_false_iff.mpr hA
    have hB : Bot.anyAuthorMatch targets authors = false := by
      rcases Bool.eq_false_or_eq_true (Bot.anyAuthorMatch targets authors) with hb | hb
      · exact absurd (h1.mpr (h2.mp hb)) hA
      · exact hb
    rw [hA', hB]

/-- C1 counterexample: on a feed whose two matching entries carry
descending published times, the RSS fetch (routed through
`fetch_latest_papers`) returns them in feed order, so the returned
sequence is not sorted by `published` ascending. -/
theorem c1_counterexample :
    ¬ List.Pairwise (fun (a b : Int) => a ≤ b)
      (((ArxivFetcher.fetch_latest_papers stC (.error ()) (.ok feedC)).toOption.getD []).map
        Paper.published) := by
  intro h
  have e : ((ArxivFetcher.fetch_latest_papers stC (.error ()) (.ok feedC)).toOption.getD
      []).map Paper.published = [1736294400, 1736208000] := by decide
  rw [e] at h
  have hle := (List.pairwise_cons.mp h).1 1736208000 (by simp)
  omega

/-- C1 amended: neither fetch path sorts its output itself; each preserves
the upstream order, so the returned sequence is sorted by `published`
ascending exactly when the corresponding upstream sequence is — for the
API path the upstream results (which the query requests in ascending
submitted-date order), and for the RSS path the normalized matching
entries in feed order. -/
theorem c1_order_amended (st : AppSettings) (rs : List ArxivFetcher.ApiResult) (feed : Feed) :
    (List.Pairwise (fun (a b : Int) => a ≤ b)
        (rs.map ArxivFetcher.ApiResult.published) →
      List.Pairwise (fun (a b : Int) => a ≤ b)
        ((ArxivFetcher.fetch_from_api (.ok rs)).map Paper.published))
    ∧ (List.Pairwise (fun (a b : Int) => a ≤ b)
        (((feed.entries.getD []).filterMap (ArxivFetcher.rssEntryStep st)).map Paper.published) →
      List.Pairwise (fun (a b : Int) => a ≤ b)
        ((ArxivFetcher.fetch_from_rss st (.ok feed)).map Paper.published)) := by
  constructor
  · intro h
    have e : (ArxivFetcher.fetch_from_api (.ok rs)).map Paper.published
        = rs.map ArxivFetcher.ApiResult.published := by
      simp only [ArxivFetcher.fetch_from_api, List.map_map]
      rfl
    rw [e]
    exact h
  · intro h
    by_cases hb : ArxivFetcher.statusBad feed.status = true
    · simp [ArxivFetcher.fetch_from_rss, hb]
    · rw [show ArxivFetcher.fetch_from_rss st (.ok feed)
          = ArxivFetcher.processFeedEntries st feed.entries by
        simp [ArxivFetcher.fetch_from_rss, Bool.eq_false_iff.mpr hb]]
      cases hE : feed.entries with
      | none => simp [ArxivFetcher.processFeedEntries]
      | some es =>
        rw [hE] at h
        simp only [Option.getD_some] at h
        simp only [ArxivFetcher.processFeedEntries, ArxivFetcher.fetchEntries]
        exact h.sublist
          (((List.take_sublist st.max_results es).filterMap _).map _)

def rsW : List ArxivFetcher.ApiResult :=
  [{ entry_id := "http://arxiv.org/abs/2501.00004"
     title := "Api One"
     authors := ["Alice Smith"]
     published := 5
     summary := "s"
     journal_ref := none },
   { entry_id := "http://arxiv.org/abs/2501.00005"
     title := "Api Two"
     authors := ["Alice Smith"]
     published := 10
     summary := "s"
     journal_ref := none }]

def feedW : Feed := { status := .intStatus 200, entries := some [e2, e1] }

/-- C1 witness: concrete sorted upstream inputs whose fetched outputs are
sorted ascending by published time. -/
theorem c1_order_witness :
    List.Pairwise (fun (a b : Int) => a ≤ b)
      ((ArxivFetcher.fetch_from_api (.ok rsW)).map Paper.published)
    ∧ List.Pairwise (fun (a b : Int) => a ≤ b)
      ((ArxivFetcher.fetch_from_rss stC (.ok feedW)).map Paper.published) := by
  have h := c1_order_amended stC rsW feedW
  refine ⟨h.1 ?_, h.2 ?_⟩
  · rw [show rsW.map ArxivFetcher.ApiResult.published = [5, 10] from rfl]
    exact List.pairwise_cons.mpr ⟨by intro b hb; simp at hb; omega,
      List.pairwise_cons.mpr ⟨by simp, List.Pairwise.nil⟩⟩
  · rw [show ((feedW.entries.getD []).filterMap (ArxivFetcher.rssEntryStep stC)).map
        Paper.published = [1736208000, 1736294400] from by decide]
    exact List.pairwise_cons.mpr ⟨by intro b hb; simp at hb; omega,
      List.pairwise_cons.mpr ⟨by simp, List.Pairwise.nil⟩⟩

def eBadAuthors : RssEntry :=
  { id := some "http://arxiv.org/abs/2501.00003"
    title := some "Paper Three"
    summary := some "info Abstract: third abstract"
    link := some "http://arxiv.org/abs/2501.00003"
    authorsField := []
    published := some "Mon, 06 Jan 2025 00:00:00 +0000"
    announceTypeAttr := some "new" }

def eGoodB : RssEntry :=
  { id := some "http://arxiv.org/abs/2501.00002"
    title := some "Paper Two"
    summary := some "info Abstract: second abstract"
    link := some "http://arxiv.org/abs/2501.00002"
    authorsField := [.dict (some "Alice Smith")]
    published := some "Mon, 06 Jan 2025 00:00:00 +0000"
    announceTypeAttr := some "new" }

/-- C9 counterexample: in the bot.py feed fetch, a single entry with a
malformed (empty) authors field raises and aborts the whole fetch, so a
well-formed matching entry in the same batch is not returned — while that
same well-formed entry alone normalizes successfully. -/
theorem c9_counterexample :
    Bot.get_latest_papers_from_rss ["Alice Smith"] 50 [eBadAuthors, eGoodB]
      = .error "invalid authors list"
    ∧ (Bot.get_latest_papers_from_rss ["Alice Smith"] 50 [eGoodB]).toOption.isSome
      = true := by
  exact ⟨by decide, by decide⟩

theorem botRun_skip (targets : List String) (bad : RssEntry)
    (h : Bot.botNormalizeEntry targets bad = .ok none) :
    ∀ pre post, Bot.botRun targets (pre ++ bad :: post) = Bot.botRun targets (pre ++ post) := by
  intro pre
  induction pre with
  | nil =>
    intro post
    simp only [List.nil_append, Bot.botRun, h]
  | cons e es ih =>
    intro post
    simp only [List.cons_append, Bot.botRun]
    rcases hs : Bot.botNormalizeEntry targets e with msg | p
    · simp [hs]
    · cases p with
      | none => simpa [hs] using ih post
      | some q => simp [hs, ih post]

/-- C9 amended: in the ArxivFetcher feed adapter, a per-item normalization
failure drops only that entry and leaves the rest of the batch unchanged,
as the claim states; in the bot.py variant this holds only for entries
skipped by its loop (unparseable published date or no author match),
while a malformed authors field or a missing id, title, summary marker or
announce-type attribute raises and aborts the whole fetch. -/
theorem c9_per_item_drop (st : AppSettings) (pre post : List RssEntry) (bad : RssEntry)
    (targets : List String) (maxr : Nat) (preB postB : List RssEntry) (badB : RssEntry)
    (h1 : ArxivFetcher.normalize_rss_entry bad = none)
    (h2 : (pre ++ bad :: post).length ≤ st.max_results)
    (h3 : Bot.botNormalizeEntry targets badB = .ok none)
    (h4 : (preB ++ badB :: postB).length ≤ maxr) :
    ArxivFetcher.fetchEntries st (pre ++ bad :: post)
      = ArxivFetcher.fetchEntries st (pre ++ post)
    ∧ Bot.get_latest_papers_from_rss targets maxr (preB ++ badB :: postB)
      = Bot.get_latest_papers_from_rss targets maxr (preB ++ postB) := by
  constructor
  · have ht1 : (pre ++ bad :: post).take st.max_results = pre ++ bad :: post :=
      List.take_of_length_le h2
    have ht2 : (pre ++ post).take st.max_results = pre ++ post :=
      List.take_of_length_le (by simp at h2 ⊢; omega)
    simp only [ArxivFetcher.fetchEntries, ht1, ht2, List.filterMap_append,
      List.filterMap_cons]
    rw [show ArxivFetcher.rssEntryStep st bad = none by
      simp [ArxivFetcher.rssEntryStep, h1]]
  · have ht1 : (preB ++ badB :: postB).take maxr = preB ++ badB :: postB :=
      List.take_of_length_le h4
    have ht2 : (preB ++ postB).take maxr = preB ++ postB :=
      List.take_of_length_le (by simp at h4 ⊢; omega)
    simp only [Bot.get_latest_papers_from_rss, ht1, ht2]
    exact botRun_skip targets badB h3 preB postB

def badW : RssEntry := {}

def badBW : RssEntry :=
  { id := some "http://arxiv.org/abs/2501.00009"
    title := some "Paper Nine"
    summary := some "info Abstract: ninth abstract"
    link := some "http://arxiv.org/abs/2501.00009"
    authorsField := [.dict (some "Alice Smith")]
    published := some "garbage"
    announceTypeAttr := some "new" }

/-- C9 witness: a fetcher entry with a missing id is dropped without
affecting the batch, and a bot.py entry with an unparseable published
date is likewise only skipped. -/
theorem c9_per_item_drop_witness :
    ArxivFetcher.fetchEntries stC [badW] = ArxivFetcher.fetchEntries stC []
    ∧ Bot.get_latest_papers_from_rss ["Alice Smith"] 50 [badBW]
      = Bot.get_latest_papers_from_rss ["Alice Smith"] 50 [] := by
  have h := c9_per_item_drop stC [] [] badW ["Alice Smith"] 50 [] [] badBW
    (by decide) (by decide) (by decide) (by decide)
  exact ⟨h.1, h.2⟩

/-- C7: the formatter either returns a message of at most 2000 characters
or the distinct failure signal `none` (it is a total function, so it never
raises); when the summary exceeds the 1400-character budget the abstract
is truncated to the budget plus a truncation marker; and when the
full-author rendering exceeds the limit and the et-al rendering still
exceeds it, the result is the failure signal. -/
theorem c7_formatter_guards (p : Paper) (s : AppSettings) :
    (match DiscordFormatter.format_paper_message p s with
     | some m => m.length ≤ 2000
     | none => True)
    ∧ (1400 < p.summary.length →
        DiscordFormatter.truncateSummary p.summary
          = strTake p.summary 1400 ++ "... [truncated]")
    ∧ ((s.source == "rss" && p.announce_type == some "replace"
          && DiscordFormatter.journalTruthy p.journal_ref) = false →
        2000 < (DiscordFormatter.fullMessage p s).length →
        2000 < (DiscordFormatter.etalMessage p s).length →
        DiscordFormatter.format_paper_message p s = none) := by
  refine ⟨?_, ?_, ?_⟩
  · have key : ∀ (o : Option String), (∀ m, o = some m → m.length ≤ 2000) →
        (match o with | some m => m.length ≤ 2000 | none => True) := by
      intro o h
      cases o with
      | none => trivial
      | some m => exact h m rfl
    apply key
    intro m hm
    unfold DiscordFormatter.format_paper_message at hm
    split_ifs at hm with h0 h1 h2 h3 <;>
      (rw [← Option.some.inj hm]; omega)
  · intro h
    unfold DiscordFormatter.truncateSummary
    rw [if_pos h]
  · intro h0 hf he
    unfold DiscordFormatter.format_paper_message
    rw [if_neg (by simp [h0]), if_pos hf, if_pos he]

def bigTitle : String := String.mk (List.replicate 1000 'T')

def bigSummary : String := String.mk (List.replicate 1450 's')

def pBig : Paper :=
  { id := "http://arxiv.org/abs/2501.00010"
    title := bigTitle
    authors := ["Alice Smith", "Bob Jones"]
    published := 0
    summary := bigSummary
    link := "http://arxiv.org/abs/2501.00010"
    pdf_link := "http://arxiv.org/pdf/2501.00010"
    journal_ref := none
    announce_type := some "api_new" }

def sApi : AppSettings := { target_authors := ["Alice Smith"], source := "api" }

theorem pBig_summary_len : pBig.summary.length = 1450 := by
  show (List.replicate 1450 's').length = 1450
  exact List.length_replicate 1450 's'

theorem pBig_title_len : pBig.title.length = 1000 := by
  show (List.replicate 1000 'T').length = 1000
  exact List.length_replicate 1000 'T'

theorem pBig_trunc_eq : DiscordFormatter.truncateSummary pBig.summary
    = strTake pBig.summary 1400 ++ "... [truncated]" := by
  unfold DiscordFormatter.truncateSummary
  rw [if_pos (by rw [pBig_summary_len]; omega)]

theorem pBig_take_len : (strTake pBig.summary 1400).length = 1400 := by
  have h : (strTake pBig.summary 1400).length = (pBig.summary.data.take 1400).length := rfl
  have h2 : pBig.summary.data.length = 1450 := pBig_summary_len
  rw [h, List.length_take, h2]
  omega

theorem fullBig_gt : 2000 < (DiscordFormatter.fullMessage pBig sApi).length := by
  have e1 : DiscordFormatter.build_target_authors_string pBig.authors sApi.target_authors
      sApi.author_discord_ids = "Alice Smith" := by decide
  have e2 : epochToDateStr pBig.published = "1970-01-01" := by decide
  have e3 : DiscordFormatter.journalLine pBig.journal_ref = "" := rfl
  have e4 : String.intercalate ", " pBig.authors = "Alice Smith, Bob Jones" := by decide
  unfold DiscordFormatter.fullMessage DiscordFormatter.messageRender
  rw [e1, e2, e3, e4, pBig_trunc_eq]
  simp only [String.length_append]
  rw [pBig_title_len, pBig_take_len]
  set_option maxRecDepth 2000 in decide

theorem etalBig_gt : 2000 < (DiscordFormatter.etalMessage pBig sApi).length := by
  have e1 : DiscordFormatter.build_target_authors_string pBig.authors sApi.target_authors
      sApi.author_discord_ids = "Alice Smith" := by decide
  have e2 : epochToDateStr pBig.published = "1970-01-01" := by decide
  have e3 : DiscordFormatter.journalLine pBig.journal_ref = "" := rfl
  have e7 : pBig.authors.headD "Unknown" = "Alice Smith" := by decide
  unfold DiscordFormatter.etalMessage DiscordFormatter.messageRender
  rw [e1, e2, e3, e7, pBig_trunc_eq]
  simp only [String.length_append]
  rw [pBig_title_len, pBig_take_len]
  set_option maxRecDepth 2000 in decide

/-- C7 witness: a paper with a 1000-character title and a 1450-character
summary overflows both the full-author and the et-al rendering, so the
formatter returns the failure signal, and its abstract is truncated to
the budget plus the marker. -/
theorem c7_formatter_witness :
    DiscordFormatter.truncateSummary bigSummary
      = strTake bigSummary 1400 ++ "... [truncated]"
    ∧ DiscordFormatter.format_paper_message pBig sApi = none := by
  have h := c7_formatter_guards pBig sApi
  exact ⟨h.2.1 (by rw [pBig_summary_len]; omega), h.2.2 (by decide) fullBig_gt etalBig_gt⟩
